import Mathlib

/-!
Verification development for the Jasho backend AI credit-scoring and
pattern-analysis modules (app/core/ai_credit_scoring.py and
app/core/ai_insights.py), shallowly embedded over exact rational and real
arithmetic. Dictionary keys read through .get with a default are modelled as
Option fields; a missing key is none.
-/

namespace Jasho

/-- Arithmetic mean as computed by np.mean on a list of rationals. The source
only applies it to nonempty lists; on the empty list this definition returns 0. -/
def np_mean (xs : List ℚ) : ℚ := xs.sum / xs.length

/-- Population variance (numpy default, ddof = 0). -/
def np_variance (xs : List ℚ) : ℚ :=
  (xs.map (fun x => (x - np_mean xs) ^ 2)).sum / xs.length

/-- Population standard deviation as computed by np.std. -/
noncomputable def np_std (xs : List ℚ) : ℝ := Real.sqrt (np_variance xs)

/-- Sample standard deviation as computed by pandas Series.std (ddof = 1).
pandas yields NaN on fewer than two points; that case feeds no claim and is
modelled as 0. -/
noncomputable def pd_std (xs : List ℚ) : ℝ :=
  if 2 ≤ xs.length then
    Real.sqrt (((xs.map (fun x => (x - np_mean xs) ^ 2)).sum / ((xs.length : ℚ) - 1) : ℚ))
  else 0

/-- An income record as read by CreditDataProcessor. -/
structure IncomeEvent where
  amount : Option ℚ
  date : Option String
deriving DecidableEq

/-- A deposit record as read by CreditDataProcessor. -/
structure DepositEvent where
  amount : Option ℚ
  date : Option String
deriving DecidableEq

/-- An expenditure record as read by CreditDataProcessor. -/
structure ExpenditureEvent where
  amount : Option ℚ
  category : Option String
  date : Option String
deriving DecidableEq

/-- A withdrawal record as read by CreditDataProcessor. -/
structure WithdrawalEvent where
  amount : Option ℚ
  time : Option String
  date : Option String
deriving DecidableEq

/-- A loan payment record; the on_time flag may be absent. -/
structure Payment where
  on_time : Option Bool
deriving DecidableEq

/-- A loan record as read by CreditDataProcessor. -/
structure Loan where
  amount : Option ℚ
  credit_limit : Option ℚ
  payments : Option (List Payment)
  status : Option String
deriving DecidableEq

/-- The financial_data bundle passed to process_user_financial_data. Keys are
read with .get defaulting to the empty list, so an absent key coincides with an
empty list. -/
structure FinancialData where
  incomes : List IncomeEvent
  deposits : List DepositEvent
  expenditures : List ExpenditureEvent
  withdrawals : List WithdrawalEvent
  loans : List Loan
deriving DecidableEq

/-- Result dict of _process_income_data. The zero-event early return carries
only total_income, income_stability and income_growth; the remaining keys are
absent there and hence Option. -/
structure IncomeMetrics where
  total_income : ℚ
  average_monthly_income : Option ℚ
  income_stability : ℝ
  income_growth : ℚ
  income_frequency : Option ℕ
  last_income_date : Option String

/-- CreditDataProcessor._process_income_data. -/
noncomputable def process_income_data (incomes : List IncomeEvent) : IncomeMetrics :=
  if incomes.isEmpty then
    { total_income := 0, average_monthly_income := none, income_stability := 0,
      income_growth := 0, income_frequency := none, last_income_date := none }
  else
    let income_amounts := incomes.map (fun i => i.amount.getD 0)
    let total_income := income_amounts.sum
    let income_stability : ℝ :=
      if 1 < income_amounts.length then
        1 - np_std income_amounts / ((np_mean income_amounts : ℚ) : ℝ)
      else 1
    let income_growth : ℚ :=
      if 1 < income_amounts.length then
        let recent_income := np_mean (income_amounts.drop (income_amounts.length - 3))
        let older_income :=
          if 3 < income_amounts.length then
            np_mean (income_amounts.take (income_amounts.length - 3))
          else recent_income
        if 0 < older_income then (recent_income - older_income) / older_income else 0
      else 0
    { total_income := total_income,
      average_monthly_income := some (total_income / incomes.length),
      income_stability := max 0 (min 1 income_stability),
      income_growth := income_growth,
      income_frequency := some incomes.length,
      last_income_date := some ((incomes.map (fun i => i.date.getD "")).foldl max "") }

/-- Result dict of _process_deposit_data, with Option fields for the keys absent
from the zero-event early return. -/
structure DepositMetrics where
  total_deposits : ℚ
  average_deposit : Option ℚ
  deposit_consistency : ℝ
  deposit_frequency : Option ℕ
  last_deposit_date : Option String

/-- CreditDataProcessor._process_deposit_data. -/
noncomputable def process_deposit_data (deposits : List DepositEvent) : DepositMetrics :=
  if deposits.isEmpty then
    { total_deposits := 0, average_deposit := none, deposit_consistency := 0,
      deposit_frequency := none, last_deposit_date := none }
  else
    let deposit_amounts := deposits.map (fun d => d.amount.getD 0)
    let total_deposits := deposit_amounts.sum
    let deposit_consistency : ℝ :=
      if 1 < deposit_amounts.length then
        1 - np_std deposit_amounts / ((np_mean deposit_amounts : ℚ) : ℝ)
      else 1
    { total_deposits := total_deposits,
      average_deposit := some (total_deposits / deposits.length),
      deposit_consistency := max 0 (min 1 deposit_consistency),
      deposit_frequency := some deposits.length,
      last_deposit_date := some ((deposits.map (fun d => d.date.getD "")).foldl max "") }

/-- The per-category accumulation loop of _process_expenditure_data: amounts are
summed per category (default category "other"), in first-appearance order. -/
def accumulate_expenditure_categories (expenditures : List ExpenditureEvent) :
    List (String × ℚ) :=
  expenditures.foldl
    (fun acc e =>
      let c := e.category.getD "other"
      let a := e.amount.getD 0
      if acc.any (fun p => p.1 == c) then
        acc.map (fun p => if p.1 == c then (p.1, p.2 + a) else p)
      else acc ++ [(c, a)])
    []

/-- Result dict of _process_expenditure_data, with Option fields for the keys
absent from the zero-event early return. -/
structure ExpenditureMetrics where
  total_expenditure : ℚ
  average_expenditure : Option ℚ
  expenditure_categories : List (String × ℚ)
  expenditure_volatility : Option ℝ
  expenditure_frequency : Option ℕ
  last_expenditure_date : Option String

/-- CreditDataProcessor._process_expenditure_data. -/
noncomputable def process_expenditure_data (expenditures : List ExpenditureEvent) :
    ExpenditureMetrics :=
  if expenditures.isEmpty then
    { total_expenditure := 0, average_expenditure := none, expenditure_categories := [],
      expenditure_volatility := none, expenditure_frequency := none,
      last_expenditure_date := none }
  else
    let expenditure_amounts := expenditures.map (fun e => e.amount.getD 0)
    let total_expenditure := expenditure_amounts.sum
    let expenditure_volatility : ℝ :=
      if 1 < expenditure_amounts.length then
        np_std expenditure_amounts / ((np_mean expenditure_amounts : ℚ) : ℝ)
      else 0
    { total_expenditure := total_expenditure,
      average_expenditure := some (total_expenditure / expenditures.length),
      expenditure_categories := accumulate_expenditure_categories expenditures,
      expenditure_volatility := some expenditure_volatility,
      expenditure_frequency := some expenditures.length,
      last_expenditure_date :=
        some ((expenditures.map (fun e => e.date.getD "")).foldl max "") }

/-- Result dict of _process_withdrawal_data; the withdrawal_patterns key appears
only in the zero-event early return (as an empty dict). -/
structure WithdrawalMetrics where
  total_withdrawals : ℚ
  withdrawal_patterns : Option (List (String × ℚ))
  average_withdrawal : Option ℚ
  withdrawal_frequency : Option ℕ
  withdrawal_amounts : Option (List ℚ)
  withdrawal_times : Option (List String)
  last_withdrawal_date : Option String
deriving DecidableEq

/-- CreditDataProcessor._process_withdrawal_data. -/
def process_withdrawal_data (withdrawals : List WithdrawalEvent) : WithdrawalMetrics :=
  if withdrawals.isEmpty then
    { total_withdrawals := 0, withdrawal_patterns := some [], average_withdrawal := none,
      withdrawal_frequency := none, withdrawal_amounts := none, withdrawal_times := none,
      last_withdrawal_date := none }
  else
    let withdrawal_amounts := withdrawals.map (fun w => w.amount.getD 0)
    let total_withdrawals := withdrawal_amounts.sum
    { total_withdrawals := total_withdrawals,
      withdrawal_patterns := none,
      average_withdrawal := some (total_withdrawals / withdrawals.length),
      withdrawal_frequency := some withdrawals.length,
      withdrawal_amounts := some withdrawal_amounts,
      withdrawal_times := some (withdrawals.map (fun w => w.time.getD "")),
      last_withdrawal_date := some ((withdrawals.map (fun w => w.date.getD "")).foldl max "") }

/-- Result dict of _process_loan_data. The zero-loan early return carries only
total_loans and payment_history_score (set to 1.0); the other keys are absent
there and hence Option. -/
structure LoanMetrics where
  total_loans : ℕ
  payment_history_score : ℚ
  total_loan_amount : Option ℚ
  loan_utilization : Option ℚ
  average_loan_amount : Option ℚ
  active_loans : Option ℕ
  defaulted_loans : Option ℕ
deriving DecidableEq

/-- Per-loan on-time payment ratio from _process_loan_data: a payment whose
on_time key is absent counts as on time (payment.get with default True); a loan
with no payments scores the neutral 0.5. -/
def loan_payment_score (loan : Loan) : ℚ :=
  let payments := loan.payments.getD []
  if payments.isEmpty then 1/2
  else (payments.countP (fun p => p.on_time.getD true) : ℚ) / payments.length

/-- CreditDataProcessor._process_loan_data. -/
def process_loan_data (loans : List Loan) : LoanMetrics :=
  if loans.isEmpty then
    { total_loans := 0, payment_history_score := 1, total_loan_amount := none,
      loan_utilization := none, average_loan_amount := none, active_loans := none,
      defaulted_loans := none }
  else
    let total_loan_amount := (loans.map (fun l => l.amount.getD 0)).sum
    let payment_history_scores := loans.map loan_payment_score
    let overall_payment_score :=
      if payment_history_scores.isEmpty then 1/2 else np_mean payment_history_scores
    let total_credit_limit :=
      (loans.map (fun l => l.credit_limit.getD (l.amount.getD 0))).sum
    let loan_utilization :=
      if 0 < total_credit_limit then total_loan_amount / total_credit_limit else 0
    { total_loans := loans.length,
      payment_history_score := overall_payment_score,
      total_loan_amount := some total_loan_amount,
      loan_utilization := some (min 1 loan_utilization),
      average_loan_amount := some (total_loan_amount / loans.length),
      active_loans := some (loans.countP (fun l => decide (l.status = some "active"))),
      defaulted_loans := some (loans.countP (fun l => decide (l.status = some "defaulted"))) }

/-- Entries of CreditDataProcessor.credit_factors: the fixed factor weights. -/
def credit_factors_weights : List (String × ℚ) :=
  [("payment_history", 35/100), ("credit_utilization", 30/100),
   ("credit_length", 15/100), ("new_credit", 10/100), ("credit_mix", 10/100)]

/-- Weight lookup in the fixed factor-weight dict. -/
def weight_of (name : String) : ℚ := (credit_factors_weights.lookup name).getD 0

/-- One value of the credit_factors dict: raw score, weight, and their product. -/
structure CreditFactor where
  score : ℚ
  weight : ℚ
  weighted_score : ℚ
deriving DecidableEq

/-- The financial_metrics dict assembled by process_user_financial_data; each
category key may in principle be absent, so fields are Option. -/
structure FinancialMetrics where
  income : Option IncomeMetrics
  deposits : Option DepositMetrics
  expenditure : Option ExpenditureMetrics
  withdrawals : Option WithdrawalMetrics
  loans : Option LoanMetrics

/-- CreditDataProcessor._calculate_credit_factors. Only the loans entry of
financial_metrics is consulted; credit_length, new_credit and credit_mix are the
source's fixed placeholder scores. -/
def calculate_credit_factors (financial_metrics : FinancialMetrics) :
    List (String × CreditFactor) :=
  let payment_history_score :=
    match financial_metrics.loans with
    | some lm => lm.payment_history_score
    | none => 1/2
  let loan_utilization :=
    match financial_metrics.loans with
    | some lm => lm.loan_utilization.getD 0
    | none => 0
  let utilization_score := max 0 (1 - loan_utilization)
  let credit_length_score : ℚ := 7/10
  let new_credit_score : ℚ := 8/10
  let credit_mix_score : ℚ := 6/10
  [("payment_history",
    { score := payment_history_score, weight := weight_of "payment_history",
      weighted_score := payment_history_score * weight_of "payment_history" }),
   ("credit_utilization",
    { score := utilization_score, weight := weight_of "credit_utilization",
      weighted_score := utilization_score * weight_of "credit_utilization" }),
   ("credit_length",
    { score := credit_length_score, weight := weight_of "credit_length",
      weighted_score := credit_length_score * weight_of "credit_length" }),
   ("new_credit",
    { score := new_credit_score, weight := weight_of "new_credit",
      weighted_score := new_credit_score * weight_of "new_credit" }),
   ("credit_mix",
    { score := credit_mix_score, weight := weight_of "credit_mix",
      weighted_score := credit_mix_score * weight_of "credit_mix" })]

/-- The processed_data record built by process_user_financial_data, restricted
to the parts the scorer reads downstream. -/
structure ProcessedData where
  financial_metrics : FinancialMetrics
  credit_factors : List (String × CreditFactor)

/-- CreditDataProcessor.process_user_financial_data. The source additionally
computes risk_indicators and recommendations; neither feeds the credit score,
the rating or the confidence score, and they are not modelled. -/
noncomputable def process_user_financial_data (financial_data : FinancialData) :
    ProcessedData :=
  let financial_metrics : FinancialMetrics :=
    { income := some (process_income_data financial_data.incomes),
      deposits := some (process_deposit_data financial_data.deposits),
      expenditure := some (process_expenditure_data financial_data.expenditures),
      withdrawals := some (process_withdrawal_data financial_data.withdrawals),
      loans := some (process_loan_data financial_data.loans) }
  { financial_metrics := financial_metrics,
    credit_factors := calculate_credit_factors financial_metrics }

/-- AICreditScorer._calculate_fallback_score: accumulate weighted score and
weight over the credit_factors dict (every entry carries a weighted_score key),
then normalise into the 300-850 range, defaulting to 600 on zero total weight. -/
def calculate_fallback_score (credit_factors : List (String × CreditFactor)) : ℚ :=
  let acc := credit_factors.foldl
    (fun acc fd => (acc.1 + fd.2.weighted_score, acc.2 + fd.2.weight)) ((0 : ℚ), (0 : ℚ))
  if 0 < acc.2 then 300 + (acc.1 / acc.2) * 550 else 600

/-- CreditDataProcessor.credit_score_ranges, in dict insertion order. -/
def credit_score_ranges : List (String × ℚ × ℚ) :=
  [("excellent", 750, 850), ("good", 700, 749), ("fair", 650, 699),
   ("poor", 600, 649), ("very_poor", 300, 599)]

/-- AICreditScorer._determine_credit_rating: first range whose closed interval
contains the (possibly fractional) score, defaulting to "fair". -/
def determine_credit_rating (credit_score : ℚ) : String :=
  match credit_score_ranges.find?
      (fun r => decide (r.2.1 ≤ credit_score) && decide (credit_score ≤ r.2.2)) with
  | some r => r.1
  | none => "fair"

/-- The band of credit_score_ranges containing a given integer score. This
follows the spec's wording that the five bands cover [300, 850]; it is the
comparison point for the rating the code actually returns. -/
def band_of_score (n : ℤ) : Option String :=
  (credit_score_ranges.find?
      (fun r => decide (r.2.1 ≤ (n : ℚ)) && decide ((n : ℚ) ≤ r.2.2))).map (fun r => r.1)

/-- AICreditScorer._calculate_confidence_score: 0.2 of data completeness per
non-empty metrics category, averaged with the placeholder recency 0.8 and
consistency 0.7 components. -/
def calculate_confidence_score (processed : ProcessedData) : ℚ :=
  let fm := processed.financial_metrics
  let data_completeness :=
    [fm.income.isSome, fm.deposits.isSome, fm.expenditure.isSome,
     fm.withdrawals.isSome, fm.loans.isSome].foldl
      (fun acc present => if present then acc + 2/10 else acc) (0 : ℚ)
  let confidence_factors := [data_completeness, 8/10, 7/10]
  confidence_factors.sum / confidence_factors.length

/-- Outcome of the trained-estimator step inside calculate_credit_score: either
no model is loaded (self.model is None, taking the fallback branch), or
scaler.transform plus model.predict return a raw score, or that call raises.
The trained GradientBoostingRegressor is an external numeric artefact, so its
output is a parameter here. -/
inductive ModelPath
| noModel
| predicts (raw : ℚ)
| raises (msg : String)

/-- The score-bearing part of the result dict of calculate_credit_score. -/
structure ScoreResult where
  credit_score : ℤ
  credit_rating : String
  confidence_score : ℚ
  credit_factors : List (String × CreditFactor)

/-- The clamp applied to the predicted score before rating and truncation. -/
def clamp_score (s : ℚ) : ℚ := max 300 (min 850 s)

/-- AICreditScorer.calculate_credit_score. An exception raised by the trained
path is caught only by the function's outermost handler, which returns an error
dict; Python's int() truncates toward zero, which on the clamped score (at
least 300) is the floor. -/
noncomputable def calculate_credit_score (financial_data : FinancialData)
    (path : ModelPath) : Except String ScoreResult :=
  let processed := process_user_financial_data financial_data
  match path with
  | ModelPath.raises msg => Except.error msg
  | ModelPath.noModel =>
      let predicted := clamp_score (calculate_fallback_score processed.credit_factors)
      Except.ok
        { credit_score := ⌊predicted⌋,
          credit_rating := determine_credit_rating predicted,
          confidence_score := calculate_confidence_score processed,
          credit_factors := processed.credit_factors }
  | ModelPath.predicts raw =>
      let predicted := clamp_score raw
      Except.ok
        { credit_score := ⌊predicted⌋,
          credit_rating := determine_credit_rating predicted,
          confidence_score := calculate_confidence_score processed,
          credit_factors := processed.credit_factors }

/-- A calendar date, standing for the pandas datetime a date string parses to. -/
structure CalDate where
  year : ℕ
  month : ℕ
  day : ℕ
deriving DecidableEq

/-- Days since 1970-01-01 of a calendar date (standard civil-calendar
conversion); this is the day arithmetic pandas performs on parsed datetimes. -/
def date_ordinal (d : CalDate) : ℤ :=
  let y : ℤ := if d.month ≤ 2 then (d.year : ℤ) - 1 else (d.year : ℤ)
  let era : ℤ := (if 0 ≤ y then y else y - 399).tdiv 400
  let yoe : ℤ := y - era * 400
  let mp : ℤ := ((d.month : ℤ) + 9) % 12
  let doy : ℤ := (153 * mp + 2).tdiv 5 + (d.day : ℤ) - 1
  let doe : ℤ := yoe * 365 + yoe.tdiv 4 - yoe.tdiv 100 + doy
  era * 146097 + doe - 719468

/-- Weekday name of a date as produced by pandas dt.day_name (1970-01-01 was a
Thursday). -/
def day_name (d : CalDate) : String :=
  match ((date_ordinal d + 3) % 7).toNat with
  | 0 => "Monday"
  | 1 => "Tuesday"
  | 2 => "Wednesday"
  | 3 => "Thursday"
  | 4 => "Friday"
  | 5 => "Saturday"
  | _ => "Sunday"

/-- Chronological comparison of calendar dates. -/
def date_le (a b : CalDate) : Bool :=
  decide (a.year < b.year) ||
    (a.year == b.year &&
      (decide (a.month < b.month) || (a.month == b.month && decide (a.day ≤ b.day))))

/-- Stable ascending sort by date, as pandas sort_values on the date column. -/
def sort_by_date {α : Type} (date_of : α → CalDate) (l : List α) : List α :=
  List.insertionSort (fun a b => date_le (date_of a) (date_of b) = true) l

/-- An event row handed to UserPatternAnalyzer (income, savings, ...): the df
indexes the date and amount columns directly. -/
structure InsEvent where
  date : CalDate
  amount : ℚ
deriving DecidableEq

/-- An expenditure row handed to UserPatternAnalyzer. The optional time column
is modelled as the hour pandas extracts from it with dt.hour. -/
structure ExpEvent where
  date : CalDate
  amount : ℚ
  category : Option String
  time : Option ℕ
deriving DecidableEq

/-- Output of scipy.stats.linregress. -/
structure LinregressResult where
  slope : ℚ
  intercept : ℚ
  r_value : ℚ
  p_value : ℚ
  std_err : ℚ

/-- External numeric routines invoked by the pattern analyzer, modelled as
oracle parameters: scipy.stats.linregress on the value series, and fit_predict
of IsolationForest(contamination=0.1, random_state=42) returning one label per
point, -1 marking an anomaly. -/
structure MLOracles where
  linregress : List ℚ → LinregressResult
  isolation_forest : List ℚ → List ℤ

/-- Quantile with linear interpolation, the default of pandas Series.quantile:
at quantile q over n sorted values the position is q * (n - 1) and the value is
interpolated between the two neighbouring order statistics. -/
def quantile_linear (xs : List ℚ) (q : ℚ) : ℚ :=
  let s := List.insertionSort (fun a b => a ≤ b) xs
  if s.length = 0 then 0
  else
    let pos := q * ((s.length : ℚ) - 1)
    let i := (⌊pos⌋).toNat
    let frac := pos - (⌊pos⌋ : ℚ)
    let lo := s.getD i 0
    let hi := s.getD (i + 1) lo
    lo + (hi - lo) * frac

/-- First key attaining the maximal value, as pandas Series.idxmax over a
series in index order; none on the empty series. -/
def idx_max {κ : Type} (l : List (κ × ℚ)) : Option κ :=
  match l with
  | [] => none
  | p :: ps =>
    let m := ps.foldl (fun acc q => max acc q.2) p.2
    (l.find? (fun q => decide (q.2 = m))).map (fun q => q.1)

/-- First key attaining the minimal value, as pandas Series.idxmin. -/
def idx_min {κ : Type} (l : List (κ × ℚ)) : Option κ :=
  match l with
  | [] => none
  | p :: ps =>
    let m := ps.foldl (fun acc q => min acc q.2) p.2
    (l.find? (fun q => decide (q.2 = m))).map (fun q => q.1)

/-- Smallest most-frequent value, which is mode().iloc[0] in pandas (the mode
series is sorted ascending); none on the empty series. -/
def list_mode (xs : List ℚ) : Option ℚ :=
  match xs with
  | [] => none
  | _ =>
    let maxc := (xs.map (fun v => xs.count v)).foldl max 0
    match xs.filter (fun v => decide (xs.count v = maxc)) with
    | [] => none
    | y :: ys => some (ys.foldl min y)

/-- Full result dict of UserPatternAnalyzer._analyze_trend (three or more
points). -/
structure TrendMetrics where
  direction : String
  slope : ℚ
  r_squared : ℚ
  p_value : ℚ
  strength : ℚ

/-- Outcome of _analyze_trend: the short series marker dict, or the full dict. -/
inductive TrendOutcome
| insufficient
| ok (t : TrendMetrics)

/-- UserPatternAnalyzer._analyze_trend: linear regression over index positions,
direction significant at p below 0.05. -/
def analyze_trend (o : MLOracles) (values : List ℚ) : TrendOutcome :=
  if values.length < 3 then TrendOutcome.insufficient
  else
    let r := o.linregress values
    TrendOutcome.ok
      { direction :=
          if r.p_value < 1/20 then (if 0 < r.slope then "increasing" else "decreasing")
          else "stable",
        slope := r.slope,
        r_squared := r.r_value ^ 2,
        p_value := r.p_value,
        strength := |r.r_value| }

/-- Result dict of _analyze_seasonality. has_seasonality compares the sample
standard deviation of the seasonality index against 0.1. -/
structure SeasonalityMetrics where
  seasonality_index : List (ℕ × ℚ)
  peak_month : Option ℕ
  low_month : Option ℕ
  has_seasonality : Prop

/-- UserPatternAnalyzer._analyze_seasonality: group amounts by calendar month
(groupby sorts the month keys ascending), normalise the monthly means by their
overall mean. -/
noncomputable def analyze_seasonality (df : List InsEvent) : SeasonalityMetrics :=
  let months := List.insertionSort (fun a b => a ≤ b) ((df.map (fun e => e.date.month)).dedup)
  let monthly_data : List (ℕ × ℚ) :=
    months.map (fun m =>
      (m, np_mean ((df.filter (fun e => e.date.month == m)).map (fun e => e.amount))))
  let overall_mean := np_mean (monthly_data.map (fun p => p.2))
  let seasonality_index := monthly_data.map (fun p => (p.1, p.2 / overall_mean))
  { seasonality_index := seasonality_index,
    peak_month := idx_max seasonality_index,
    low_month := idx_min seasonality_index,
    has_seasonality := 1/10 < pd_std (seasonality_index.map (fun p => p.2)) }

/-- Result dict of _analyze_frequency. -/
structure FrequencyMetrics where
  average_frequency_days : ℚ
  frequency_std : ℝ
  most_common_interval : Option ℚ
  frequency_consistency : ℝ

/-- Day gaps between consecutive rows, the dropna of the date diff column. -/
def date_diffs (df : List InsEvent) : List ℚ :=
  (df.zip df.tail).map (fun p => ((date_ordinal p.2.date - date_ordinal p.1.date : ℤ) : ℚ))

/-- UserPatternAnalyzer._analyze_frequency on the date-sorted frame. -/
noncomputable def analyze_frequency (df : List InsEvent) : FrequencyMetrics :=
  let df_sorted := sort_by_date (fun e : InsEvent => e.date) df
  let time_diffs := date_diffs df_sorted
  let m := np_mean time_diffs
  { average_frequency_days := m,
    frequency_std := pd_std time_diffs,
    most_common_interval := list_mode time_diffs,
    frequency_consistency := if 0 < m then 1 - pd_std time_diffs / ((m : ℚ) : ℝ) else 0 }

/-- One entry of the anomaly list of _detect_income_anomalies. -/
structure AnomalyEntry where
  date : CalDate
  amount : ℚ
  type : String
  severity : String
deriving DecidableEq

/-- UserPatternAnalyzer._detect_income_anomalies: rows labelled -1 by the
isolation forest, severity high above the 95th percentile of amounts. -/
def detect_income_anomalies (o : MLOracles) (df : List InsEvent) : List AnomalyEntry :=
  let amounts := df.map (fun e => e.amount)
  let labels := o.isolation_forest amounts
  let q95 := quantile_linear amounts (95/100)
  (df.zip labels).filterMap (fun p =>
    if p.2 = -1 then
      some { date := p.1.date, amount := p.1.amount, type := "income_anomaly",
             severity := if q95 < p.1.amount then "high" else "medium" }
    else none)

/-- Per-category aggregation dicts of _analyze_expenditure_categories. -/
structure CategoryBreakdown where
  category_totals : List (String × ℚ)
  category_averages : List (String × ℚ)
  category_counts : List (String × ℕ)
  category_percentages : List (String × ℚ)

/-- Outcome of _analyze_expenditure_categories: the error dict when the frame
has no category column, else the aggregation. -/
inductive ExpCategoryOutcome
| missingColumn
| ok (c : CategoryBreakdown)

/-- UserPatternAnalyzer._analyze_expenditure_categories. The category column
exists when at least one row carries a category; groupby (which sorts its keys)
drops rows with a missing category, while the percentage loop runs over the
categories in first-appearance order and divides by the total over all rows. -/
def analyze_expenditure_categories (df : List ExpEvent) : ExpCategoryOutcome :=
  if df.all (fun e => e.category.isNone) then ExpCategoryOutcome.missingColumn
  else
    let cats := (df.filterMap (fun e => e.category)).dedup
    let sorted_cats := List.insertionSort (fun a b => a ≤ b) cats
    let amounts_of := fun c =>
      (df.filter (fun e => e.category == some c)).map (fun e => e.amount)
    let total_expenditure := (df.map (fun e => e.amount)).sum
    ExpCategoryOutcome.ok
      { category_totals := sorted_cats.map (fun c => (c, (amounts_of c).sum)),
        category_averages := sorted_cats.map (fun c => (c, np_mean (amounts_of c))),
        category_counts := sorted_cats.map (fun c => (c, (amounts_of c).length)),
        category_percentages :=
          cats.map (fun c => (c, (amounts_of c).sum / total_expenditure * 100)) }

/-- Result dict of _analyze_spending_patterns. -/
structure SpendingPatterns where
  daily_patterns : List (String × ℚ)
  hourly_patterns : List (ℕ × ℚ)
  peak_spending_day : Option String
  lowest_spending_day : Option String

/-- UserPatternAnalyzer._analyze_spending_patterns: mean spend per weekday name
(groupby sorts the names alphabetically), and per hour when a time column is
present (rows without a time are dropped by groupby). -/
def analyze_spending_patterns (df : List ExpEvent) : SpendingPatterns :=
  let day_of := fun e : ExpEvent => day_name e.date
  let days := List.insertionSort (fun a b => a ≤ b) ((df.map day_of).dedup)
  let daily_patterns :=
    days.map (fun d =>
      (d, np_mean ((df.filter (fun e => day_of e == d)).map (fun e => e.amount))))
  let hourly_patterns :=
    if df.all (fun e => e.time.isNone) then []
    else
      let hours := List.insertionSort (fun a b => a ≤ b) ((df.filterMap (fun e => e.time)).dedup)
      hours.map (fun h =>
        (h, np_mean ((df.filter (fun e => e.time == some h)).map (fun e => e.amount))))
  { daily_patterns := daily_patterns,
    hourly_patterns := hourly_patterns,
    peak_spending_day := idx_max daily_patterns,
    lowest_spending_day := idx_min daily_patterns }

/-- One entry of the list returned by _detect_unusual_spending. -/
structure UnusualSpendingEntry where
  date : CalDate
  amount : ℚ
  category : String
  type : String
  severity : String
deriving DecidableEq

/-- UserPatternAnalyzer._detect_unusual_spending: rows whose amount strictly
exceeds the 95th percentile of the amount column, each reported with severity
"high". -/
def detect_unusual_spending (df : List ExpEvent) : List UnusualSpendingEntry :=
  let high_value_threshold := quantile_linear (df.map (fun e => e.amount)) (95/100)
  (df.filter (fun t => decide (high_value_threshold < t.amount))).map
    (fun t =>
      { date := t.date, amount := t.amount, category := t.category.getD "unknown",
        type := "high_value_transaction", severity := "high" })

/-- Outcome of a category analysis: the insufficient_data marker dict, or the
full analysis payload. -/
inductive AnalysisOutcome (α : Type)
| insufficientData
| ok (a : α)

/-- UserPatternAnalyzer.min_data_points. -/
def min_data_points : ℕ := 10

/-- Full result dict of _analyze_income_patterns. -/
structure IncomePatterns where
  total_income : ℚ
  average_income : ℚ
  income_volatility : ℝ
  trend : TrendOutcome
  seasonality : SeasonalityMetrics
  frequency : FrequencyMetrics
  anomalies : List AnomalyEntry
  data_points : ℕ

/-- UserPatternAnalyzer._analyze_income_patterns. Below min_data_points the
marker dict is returned; otherwise the frame is sorted by date and fully
analysed. The coefficient of variation uses the pandas sample std. -/
noncomputable def analyze_income_patterns (o : MLOracles) (incomes : List InsEvent) :
    AnalysisOutcome IncomePatterns :=
  if incomes.length < min_data_points then AnalysisOutcome.insufficientData
  else
    let df := sort_by_date (fun e : InsEvent => e.date) incomes
    let amounts := df.map (fun e => e.amount)
    let average_income := np_mean amounts
    AnalysisOutcome.ok
      { total_income := amounts.sum,
        average_income := average_income,
        income_volatility :=
          if 0 < average_income then pd_std amounts / ((average_income : ℚ) : ℝ) else 0,
        trend := analyze_trend o amounts,
        seasonality := analyze_seasonality df,
        frequency := analyze_frequency df,
        anomalies := detect_income_anomalies o df,
        data_points := df.length }

/-- Full result dict of _analyze_expenditure_patterns. -/
structure ExpenditurePatterns where
  total_expenditure : ℚ
  average_expenditure : ℚ
  expenditure_volatility : ℝ
  category_analysis : ExpCategoryOutcome
  trend : TrendOutcome
  spending_patterns : SpendingPatterns
  unusual_spending : List UnusualSpendingEntry
  data_points : ℕ

/-- UserPatternAnalyzer._analyze_expenditure_patterns. -/
noncomputable def analyze_expenditure_patterns (o : MLOracles)
    (expenditures : List ExpEvent) : AnalysisOutcome ExpenditurePatterns :=
  if expenditures.length < min_data_points then AnalysisOutcome.insufficientData
  else
    let df := sort_by_date (fun e : ExpEvent => e.date) expenditures
    let amounts := df.map (fun e => e.amount)
    let average_expenditure := np_mean amounts
    AnalysisOutcome.ok
      { total_expenditure := amounts.sum,
        average_expenditure := average_expenditure,
        expenditure_volatility :=
          if 0 < average_expenditure then pd_std amounts / ((average_expenditure : ℚ) : ℝ)
          else 0,
        category_analysis := analyze_expenditure_categories df,
        trend := analyze_trend o amounts,
        spending_patterns := analyze_spending_patterns df,
        unusual_spending := detect_unusual_spending df,
        data_points := df.length }

/-- Keys of the dict _analyze_income_patterns returns in each outcome. -/
def income_patterns_keys : AnalysisOutcome IncomePatterns → List String
  | AnalysisOutcome.insufficientData => ["insufficient_data"]
  | AnalysisOutcome.ok _ =>
      ["total_income", "average_income", "income_volatility", "trend", "seasonality",
       "frequency", "anomalies", "data_points"]

/-- Keys of the dict _analyze_expenditure_patterns returns in each outcome. -/
def expenditure_patterns_keys : AnalysisOutcome ExpenditurePatterns → List String
  | AnalysisOutcome.insufficientData => ["insufficient_data"]
  | AnalysisOutcome.ok _ =>
      ["total_expenditure", "average_expenditure", "expenditure_volatility",
       "category_analysis", "trend", "spending_patterns", "unusual_spending",
       "data_points"]

/-- Minimum of a series as computed by np.min; 0 on the empty list, which the
source never passes. -/
def np_min (xs : List ℚ) : ℚ :=
  match xs with
  | [] => 0
  | y :: ys => ys.foldl min y

/-- Maximum of a series as computed by np.max; 0 on the empty list. -/
def np_max (xs : List ℚ) : ℚ :=
  match xs with
  | [] => 0
  | y :: ys => ys.foldl max y

/-- Median as computed by np.median: middle order statistic, or the mean of the
two middle ones on an even count. -/
def np_median (xs : List ℚ) : ℚ :=
  let s := List.insertionSort (fun a b : ℚ => a ≤ b) xs
  let n := s.length
  if n = 0 then 0
  else if n % 2 = 1 then s.getD (n / 2) 0
  else (s.getD (n / 2 - 1) 0 + s.getD (n / 2) 0) / 2

/-- Counts of np.histogram(amounts, bins=10): ten equal-width bins spanning
[min, max], each bin left-closed and the last bin right-closed. numpy's
expansion of the degenerate all-equal range is not reproduced; no claim reads
the histogram. -/
def np_histogram10 (xs : List ℚ) : List ℕ :=
  let lo := np_min xs
  let hi := np_max xs
  let w := (hi - lo) / 10
  (List.range 10).map (fun i =>
    if i = 9 then
      (xs.filter (fun x => decide (lo + w * (i : ℚ) ≤ x) && decide (x ≤ hi))).length
    else
      (xs.filter (fun x => decide (lo + w * (i : ℚ) ≤ x) &&
        decide (x < lo + w * ((i : ℚ) + 1)))).length)

/-- Running partial sums, as pandas Series.cumsum. -/
def cumsum (xs : List ℚ) : List ℚ :=
  (List.scanl (fun a b => a + b) 0 xs).tail

/-- Result dict of _analyze_savings_consistency. The clamped entries use the
raw scores, whose unclamped values also feed overall_consistency. -/
structure SavingsConsistency where
  amount_consistency : ℝ
  frequency_consistency : ℝ
  overall_consistency : ℝ

/-- UserPatternAnalyzer._analyze_savings_consistency on the date-sorted frame:
np.std over amounts, pandas sample std over the day gaps. -/
noncomputable def analyze_savings_consistency (df : List InsEvent) : SavingsConsistency :=
  let amounts := df.map (fun e => e.amount)
  let consistency_score : ℝ :=
    if 0 < np_mean amounts then 1 - np_std amounts / ((np_mean amounts : ℚ) : ℝ) else 0
  let time_diffs := date_diffs df
  let frequency_consistency : ℝ :=
    if 0 < np_mean time_diffs then
      1 - pd_std time_diffs / ((np_mean time_diffs : ℚ) : ℝ)
    else 0
  { amount_consistency := max 0 (min 1 consistency_score),
    frequency_consistency := max 0 (min 1 frequency_consistency),
    overall_consistency := (consistency_score + frequency_consistency) / 2 }

/-- Result dict of _analyze_savings_goals. -/
structure SavingsGoals where
  total_savings : ℚ
  average_monthly_savings : ℚ
  savings_trajectory : List ℚ
  goal_achievement_rate : ℚ

/-- UserPatternAnalyzer._analyze_savings_goals: cumulative savings with its
final value, the mean amount, and the source's fixed placeholder rate. -/
def analyze_savings_goals (df : List InsEvent) : SavingsGoals :=
  let df_sorted := sort_by_date (fun e : InsEvent => e.date) df
  let cumulative := cumsum (df_sorted.map (fun e => e.amount))
  { total_savings := cumulative.getLastD 0,
    average_monthly_savings := np_mean (df_sorted.map (fun e => e.amount)),
    savings_trajectory := cumulative,
    goal_achievement_rate := 8/10 }

/-- Result dict of _predict_savings_trajectory. -/
structure SavingsTrajectory where
  predicted_monthly_savings : List ℚ
  predicted_total_savings : ℚ
  confidence : ℚ

/-- UserPatternAnalyzer._predict_savings_trajectory: linear extrapolation of
the fitted regression line over the next 12 index positions. -/
def predict_savings_trajectory (o : MLOracles) (df : List InsEvent) : SavingsTrajectory :=
  let amounts := df.map (fun e => e.amount)
  let r := o.linregress amounts
  let predicted := (List.range 12).map
    (fun k => r.slope * ((amounts.length + k : ℕ) : ℚ) + r.intercept)
  { predicted_monthly_savings := predicted,
    predicted_total_savings := predicted.sum,
    confidence := 7/10 }

/-- Full result dict of _analyze_savings_patterns. -/
structure SavingsPatterns where
  total_savings : ℚ
  average_savings : ℚ
  consistency : SavingsConsistency
  goals_analysis : SavingsGoals
  trajectory : SavingsTrajectory
  data_points : ℕ

/-- UserPatternAnalyzer._analyze_savings_patterns. -/
noncomputable def analyze_savings_patterns (o : MLOracles) (savings : List InsEvent) :
    AnalysisOutcome SavingsPatterns :=
  if savings.length < min_data_points then AnalysisOutcome.insufficientData
  else
    let df := sort_by_date (fun e : InsEvent => e.date) savings
    AnalysisOutcome.ok
      { total_savings := (df.map (fun e => e.amount)).sum,
        average_savings := np_mean (df.map (fun e => e.amount)),
        consistency := analyze_savings_consistency df,
        goals_analysis := analyze_savings_goals df,
        trajectory := predict_savings_trajectory o df,
        data_points := df.length }

/-- A transaction row handed to UserPatternAnalyzer: date and amount columns
indexed directly, optional time (modelled as the hour pandas extracts) and
optional type columns. -/
structure TxEvent where
  date : CalDate
  amount : ℚ
  time : Option ℕ
  type : Option String
deriving DecidableEq

/-- Result dict of _analyze_transaction_frequency. -/
structure TransactionFrequency where
  average_daily_transactions : ℚ
  max_daily_transactions : ℕ
  transaction_frequency_std : ℝ
  most_active_day : Option CalDate

/-- UserPatternAnalyzer._analyze_transaction_frequency: per-calendar-day
transaction counts (groupby sorts the day keys ascending), their mean, max,
pandas sample std and first most-active day. -/
noncomputable def analyze_transaction_frequency (df : List TxEvent) :
    TransactionFrequency :=
  let days := List.insertionSort (fun a b : CalDate => date_le a b = true)
    ((df.map (fun e => e.date)).dedup)
  let daily_counts : List (CalDate × ℕ) :=
    days.map (fun d => (d, (df.filter (fun e => decide (e.date = d))).length))
  { average_daily_transactions := np_mean (daily_counts.map (fun p => (p.2 : ℚ))),
    max_daily_transactions := (daily_counts.map (fun p => p.2)).foldl max 0,
    transaction_frequency_std := pd_std (daily_counts.map (fun p => (p.2 : ℚ))),
    most_active_day := idx_max (daily_counts.map (fun p => (p.1, (p.2 : ℚ)))) }

/-- Result dict of _analyze_transaction_amounts. -/
structure TransactionAmounts where
  average_amount : ℚ
  median_amount : ℚ
  amount_std : ℝ
  min_amount : ℚ
  max_amount : ℚ
  amount_distribution : List ℕ

/-- UserPatternAnalyzer._analyze_transaction_amounts: numpy statistics of the
amount column. -/
noncomputable def analyze_transaction_amounts (df : List TxEvent) : TransactionAmounts :=
  let amounts := df.map (fun e => e.amount)
  { average_amount := np_mean amounts,
    median_amount := np_median amounts,
    amount_std := np_std amounts,
    min_amount := np_min amounts,
    max_amount := np_max amounts,
    amount_distribution := np_histogram10 amounts }

/-- Hourly aggregation dict of _analyze_transaction_timing when a time column
exists. -/
structure TransactionTiming where
  peak_hour : Option ℕ
  lowest_hour : Option ℕ
  hourly_distribution : List (ℕ × ℕ)

/-- Outcome of _analyze_transaction_timing: the error dict when the frame has
no time column, else the hourly aggregation. -/
inductive TransactionTimingOutcome
| missingTime
| ok (t : TransactionTiming)

/-- UserPatternAnalyzer._analyze_transaction_timing: per-hour counts (groupby
sorts the hour keys and drops rows without a time), with first peak and lowest
hours. -/
def analyze_transaction_timing (df : List TxEvent) : TransactionTimingOutcome :=
  if df.all (fun e => e.time.isNone) then TransactionTimingOutcome.missingTime
  else
    let hours := List.insertionSort (fun a b : ℕ => a ≤ b)
      ((df.filterMap (fun e => e.time)).dedup)
    let hourly_counts : List (ℕ × ℕ) :=
      hours.map (fun h => (h, (df.filter (fun e => e.time == some h)).length))
    TransactionTimingOutcome.ok
      { peak_hour := idx_max (hourly_counts.map (fun p => (p.1, (p.2 : ℚ)))),
        lowest_hour := idx_min (hourly_counts.map (fun p => (p.1, (p.2 : ℚ)))),
        hourly_distribution := hourly_counts }

/-- Per-type aggregation dicts of _analyze_transaction_types. -/
structure TypeMetrics where
  type_totals : List (String × ℚ)
  type_averages : List (String × ℚ)
  type_counts : List (String × ℕ)

/-- Outcome of _analyze_transaction_types: the error dict when the frame has no
type column, else the aggregation. -/
inductive TransactionTypesOutcome
| missingType
| ok (t : TypeMetrics)

/-- UserPatternAnalyzer._analyze_transaction_types: sum, mean and count of
amounts grouped by transaction type (groupby sorts the type keys and drops rows
without a type). -/
def analyze_transaction_types (df : List TxEvent) : TransactionTypesOutcome :=
  if df.all (fun e => e.type.isNone) then TransactionTypesOutcome.missingType
  else
    let types := List.insertionSort (fun a b : String => a ≤ b)
      ((df.filterMap (fun e => e.type)).dedup)
    let amounts_of := fun t =>
      (df.filter (fun e => e.type == some t)).map (fun e => e.amount)
    TransactionTypesOutcome.ok
      { type_totals := types.map (fun t => (t, (amounts_of t).sum)),
        type_averages := types.map (fun t => (t, np_mean (amounts_of t))),
        type_counts := types.map (fun t => (t, (amounts_of t).length)) }

/-- Full result dict of _analyze_transaction_patterns. -/
structure TransactionPatterns where
  frequency : TransactionFrequency
  amounts : TransactionAmounts
  timing : TransactionTimingOutcome
  types : TransactionTypesOutcome
  data_points : ℕ

/-- UserPatternAnalyzer._analyze_transaction_patterns. -/
noncomputable def analyze_transaction_patterns (transactions : List TxEvent) :
    AnalysisOutcome TransactionPatterns :=
  if transactions.length < min_data_points then AnalysisOutcome.insufficientData
  else
    let df := sort_by_date (fun e : TxEvent => e.date) transactions
    AnalysisOutcome.ok
      { frequency := analyze_transaction_frequency df,
        amounts := analyze_transaction_amounts df,
        timing := analyze_transaction_timing df,
        types := analyze_transaction_types df,
        data_points := df.length }

/-- Keys of the dict _analyze_savings_patterns returns in each outcome. -/
def savings_patterns_keys : AnalysisOutcome SavingsPatterns → List String
  | AnalysisOutcome.insufficientData => ["insufficient_data"]
  | AnalysisOutcome.ok _ =>
      ["total_savings", "average_savings", "consistency", "goals_analysis",
       "trajectory", "data_points"]

/-- Keys of the dict _analyze_transaction_patterns returns in each outcome. -/
def transaction_patterns_keys : AnalysisOutcome TransactionPatterns → List String
  | AnalysisOutcome.insufficientData => ["insufficient_data"]
  | AnalysisOutcome.ok _ =>
      ["frequency", "amounts", "timing", "types", "data_points"]

/-! Concrete inputs used by witnesses and counterexamples. -/

/-- A bundle with no events in any category. -/
def empty_financial_data : FinancialData :=
  { incomes := [], deposits := [], expenditures := [], withdrawals := [], loans := [] }

/-- Projection of the raw score of a named credit factor. -/
def factor_score (credit_factors : List (String × CreditFactor)) (name : String) :
    Option ℚ :=
  (credit_factors.lookup name).map (fun f => f.score)

/-- A loan whose fallback contribution lands the raw score exactly on 649.5,
between the poor and fair bands: one on-time payment and utilization 571/660. -/
def c1_loan : Loan :=
  { amount := some 571, credit_limit := some 660,
    payments := some [{ on_time := some true }], status := none }

/-- A bundle whose fallback score is exactly 649.5. -/
def c1_financial_data : FinancialData :=
  { incomes := [], deposits := [], expenditures := [], withdrawals := [],
    loans := [c1_loan] }

/-- A loan whose payment records all lack the on_time flag. -/
def c10_loan : Loan :=
  { amount := some 100, credit_limit := none,
    payments := some [{ on_time := none }, { on_time := none }], status := none }

/-- Number of metrics categories present in the financial_metrics dict. -/
def present_count (fm : FinancialMetrics) : ℕ :=
  [fm.income.isSome, fm.deposits.isSome, fm.expenditure.isSome,
   fm.withdrawals.isSome, fm.loans.isSome].countP id

/-- Two income events and one deposit event for the C6 witness. -/
def c6_incomes : List IncomeEvent :=
  [{ amount := some 10, date := none }, { amount := some 20, date := none }]

/-- Deposit list for the C6 witness. -/
def c6_deposits : List DepositEvent := [{ amount := some 5, date := none }]

/-- Constant oracles standing for the external numeric routines in the C7
instances. -/
def c7_oracles : MLOracles :=
  { linregress := fun _ =>
      { slope := 0, intercept := 0, r_value := 0, p_value := 0, std_err := 0 },
    isolation_forest := fun _ => [] }

/-- Ten expenditure events, exactly at the analysis threshold. -/
def c7_expenditures : List ExpEvent :=
  [⟨⟨2024, 1, 1⟩, 100, none, none⟩, ⟨⟨2024, 1, 2⟩, 100, none, none⟩,
   ⟨⟨2024, 1, 3⟩, 100, none, none⟩, ⟨⟨2024, 1, 4⟩, 100, none, none⟩,
   ⟨⟨2024, 1, 5⟩, 100, none, none⟩, ⟨⟨2024, 1, 6⟩, 100, none, none⟩,
   ⟨⟨2024, 1, 7⟩, 100, none, none⟩, ⟨⟨2024, 1, 8⟩, 100, none, none⟩,
   ⟨⟨2024, 1, 9⟩, 100, none, none⟩, ⟨⟨2024, 1, 10⟩, 100, none, none⟩]

/-- Ten income events, exactly at the analysis threshold. -/
def c7_incomes : List InsEvent :=
  [⟨⟨2024, 1, 1⟩, 100⟩, ⟨⟨2024, 1, 2⟩, 100⟩, ⟨⟨2024, 1, 3⟩, 100⟩,
   ⟨⟨2024, 1, 4⟩, 100⟩, ⟨⟨2024, 1, 5⟩, 100⟩, ⟨⟨2024, 1, 6⟩, 100⟩,
   ⟨⟨2024, 1, 7⟩, 100⟩, ⟨⟨2024, 1, 8⟩, 100⟩, ⟨⟨2024, 1, 9⟩, 100⟩,
   ⟨⟨2024, 1, 10⟩, 100⟩]

/-- Nine income events, one below the analysis threshold. -/
def c7_incomes_short : List InsEvent :=
  [⟨⟨2024, 1, 1⟩, 100⟩, ⟨⟨2024, 1, 2⟩, 100⟩, ⟨⟨2024, 1, 3⟩, 100⟩,
   ⟨⟨2024, 1, 4⟩, 100⟩, ⟨⟨2024, 1, 5⟩, 100⟩, ⟨⟨2024, 1, 6⟩, 100⟩,
   ⟨⟨2024, 1, 7⟩, 100⟩, ⟨⟨2024, 1, 8⟩, 100⟩, ⟨⟨2024, 1, 9⟩, 100⟩]

/-- Ten transaction events, exactly at the analysis threshold. -/
def c7_transactions : List TxEvent :=
  [⟨⟨2024, 1, 1⟩, 100, none, none⟩, ⟨⟨2024, 1, 2⟩, 100, none, none⟩,
   ⟨⟨2024, 1, 3⟩, 100, none, none⟩, ⟨⟨2024, 1, 4⟩, 100, none, none⟩,
   ⟨⟨2024, 1, 5⟩, 100, none, none⟩, ⟨⟨2024, 1, 6⟩, 100, none, none⟩,
   ⟨⟨2024, 1, 7⟩, 100, none, none⟩, ⟨⟨2024, 1, 8⟩, 100, none, none⟩,
   ⟨⟨2024, 1, 9⟩, 100, none, none⟩, ⟨⟨2024, 1, 10⟩, 100, none, none⟩]

/-- A routine near-1000 expenditure event for the C9 witness. -/
def c9_routine : ExpEvent := ⟨⟨2024, 1, 1⟩, 1000, none, none⟩

/-- The 50000 outlier event for the C9 witness. -/
def c9_outlier : ExpEvent := ⟨⟨2024, 1, 2⟩, 50000, none, none⟩

/-- Ten routine events preceding the outlier in the C9 witness frame. -/
def c9_before : List ExpEvent := List.replicate 10 c9_routine

/-- Nine routine events following the outlier in the C9 witness frame. -/
def c9_after : List ExpEvent := List.replicate 9 c9_routine

/-! Helper lemmas shared across the claims. -/

/-- The clamped predicted score lies in the 300 to 850 range. -/
theorem clamp_score_mem (s : ℚ) : 300 ≤ clamp_score s ∧ clamp_score s ≤ 850 := by
  unfold clamp_score
  constructor
  · exact le_max_left _ _
  · exact max_le (by norm_num) (min_le_left _ _)

/-- Floor of the clamped score lies in the integer range 300 to 850. -/
theorem clamp_score_floor_mem (s : ℚ) : 300 ≤ ⌊clamp_score s⌋ ∧ ⌊clamp_score s⌋ ≤ 850 := by
  obtain ⟨h1, h2⟩ := clamp_score_mem s
  constructor
  · exact Int.le_floor.mpr (by exact_mod_cast h1)
  · have := Int.floor_le_floor h2
    simpa using this

/-- The fold in _calculate_fallback_score accumulates the two sums. -/
theorem fallback_foldl (l : List (String × CreditFactor)) (a b : ℚ) :
    l.foldl (fun acc fd => (acc.1 + fd.2.weighted_score, acc.2 + fd.2.weight)) (a, b) =
      (a + (l.map (fun fd => fd.2.weighted_score)).sum,
       b + (l.map (fun fd => fd.2.weight)).sum) := by
  induction l generalizing a b with
  | nil => simp
  | cons hd tl ih =>
      simp only [List.foldl_cons, List.map_cons, List.sum_cons, ih]
      rw [Prod.mk.injEq]
      constructor <;> ring

/-- C4: _calculate_fallback_score returns 300 + 550 times the ratio of the
summed weighted scores to the summed weights of the credit factors, and returns
exactly 600 when the total weight is 0 (in particular when no credit factors are
present). -/
theorem c4_fallback_formula (credit_factors : List (String × CreditFactor)) :
    (0 < (credit_factors.map (fun fd => fd.2.weight)).sum →
      calculate_fallback_score credit_factors =
        300 + 550 * ((credit_factors.map (fun fd => fd.2.weighted_score)).sum /
          (credit_factors.map (fun fd => fd.2.weight)).sum)) ∧
    ((credit_factors.map (fun fd => fd.2.weight)).sum = 0 →
      calculate_fallback_score credit_factors = 600) := by
  unfold calculate_fallback_score
  rw [fallback_foldl, zero_add, zero_add]
  constructor
  · intro h
    rw [if_pos h]
    ring
  · intro h
    rw [h]
    norm_num

/-- Witness for C4 at the factor list of an all-empty bundle (total weight 1)
and at the empty factor list (total weight 0). -/
theorem c4_fallback_formula_witness :
    (0 < ((calculate_credit_factors
        { income := none, deposits := none, expenditure := none, withdrawals := none,
          loans := none }).map (fun fd => fd.2.weight)).sum ∧
      calculate_fallback_score (calculate_credit_factors
        { income := none, deposits := none, expenditure := none, withdrawals := none,
          loans := none }) =
        300 + 550 * (((calculate_credit_factors
            { income := none, deposits := none, expenditure := none, withdrawals := none,
              loans := none }).map (fun fd => fd.2.weighted_score)).sum /
          ((calculate_credit_factors
            { income := none, deposits := none, expenditure := none, withdrawals := none,
              loans := none }).map (fun fd => fd.2.weight)).sum)) ∧
    ((([] : List (String × CreditFactor)).map (fun fd => fd.2.weight)).sum = 0 ∧
      calculate_fallback_score [] = 600) :=
  ⟨⟨by (simp [calculate_credit_factors, weight_of, credit_factors_weights, List.lookup]; norm_num),
    (c4_fallback_formula _).1
      (by (simp [calculate_credit_factors, weight_of, credit_factors_weights, List.lookup]; norm_num))⟩,
   ⟨by norm_num, (c4_fallback_formula []).2 (by norm_num)⟩⟩

/-- C5: the confidence score is the arithmetic mean of the data-completeness
component (0.2 per non-empty metrics category), the recency placeholder 0.8 and
the consistency placeholder 0.7; equivalently each missing category lowers it by
0.2 / 3 from the full 5/6, and every fully processed bundle scores 5/6. -/
theorem c5_confidence_formula (processed : ProcessedData) (fd : FinancialData) :
    calculate_confidence_score processed =
      ((2/10) * (present_count processed.financial_metrics : ℚ) + 8/10 + 7/10) / 3 ∧
    calculate_confidence_score processed =
      5/6 - ((2/10) / 3) * (5 - (present_count processed.financial_metrics : ℚ)) ∧
    calculate_confidence_score (process_user_financial_data fd) = 5/6 := by
  obtain ⟨⟨i, d, e, w, l⟩, cf⟩ := processed
  refine ⟨?_, ?_, ?_⟩
  · cases i <;> cases d <;> cases e <;> cases w <;> cases l <;>
      simp [calculate_confidence_score, present_count] <;> norm_num
  · cases i <;> cases d <;> cases e <;> cases w <;> cases l <;>
      simp [calculate_confidence_score, present_count] <;> norm_num
  · simp [process_user_financial_data, calculate_confidence_score]
    norm_num

/-- C8: the five credit factors always carry the fixed weights 0.35, 0.30,
0.15, 0.10, 0.10 in that order, the weights sum to 1, and the named weights are
identical across any two inputs. -/
theorem c8_weights_fixed (fm fm' : FinancialMetrics) :
    (calculate_credit_factors fm).map (fun p => (p.1, p.2.weight)) =
      [("payment_history", 35/100), ("credit_utilization", 30/100),
       ("credit_length", 15/100), ("new_credit", 10/100), ("credit_mix", 10/100)] ∧
    ((calculate_credit_factors fm).map (fun p => p.2.weight)).sum = 1 ∧
    (calculate_credit_factors fm).map (fun p => (p.1, p.2.weight)) =
      (calculate_credit_factors fm').map (fun p => (p.1, p.2.weight)) := by
  refine ⟨rfl, ?_, rfl⟩
  show (35/100 : ℚ) + (30/100 + (15/100 + (10/100 + (10/100 + 0)))) = 1
  norm_num

/-- C10: in _process_loan_data a payment lacking the on_time key counts as on
time, the per-loan score being the on-time count over the total count; hence a
nonempty payment list all of whose records omit the flag scores exactly 1. -/
theorem c10_missing_flag_counts_on_time (loan : Loan) (ps : List Payment)
    (hps : loan.payments = some ps) (hne : ps ≠ []) :
    loan_payment_score loan =
      (ps.countP (fun p => p.on_time.getD true) : ℚ) / ps.length ∧
    ((∀ p ∈ ps, p.on_time = none) → loan_payment_score loan = 1) := by
  have hemp : ps.isEmpty = false := by
    cases ps with
    | nil => exact absurd rfl hne
    | cons a l => rfl
  have h1 : loan_payment_score loan =
      (ps.countP (fun p => p.on_time.getD true) : ℚ) / ps.length := by
    unfold loan_payment_score
    rw [hps]
    simp [hemp]
  refine ⟨h1, fun hall => ?_⟩
  have hcnt : ps.countP (fun p => p.on_time.getD true) = ps.length :=
    List.countP_eq_length.mpr (fun p hp => by rw [hall p hp]; rfl)
  have hlen : (ps.length : ℚ) ≠ 0 := by
    have h0 : 0 < ps.length := List.length_pos.mpr hne
    exact Nat.cast_ne_zero.mpr h0.ne'
  rw [h1, hcnt]
  exact div_self hlen

/-- Witness for C10 at a loan with two payments, both lacking the flag. -/
theorem c10_missing_flag_counts_on_time_witness :
    c10_loan.payments = some [{ on_time := none }, { on_time := none }] ∧
    ([{ on_time := none }, { on_time := none }] : List Payment) ≠ [] ∧
    loan_payment_score c10_loan = 1 :=
  ⟨rfl, by decide,
   (c10_missing_flag_counts_on_time c10_loan
     [{ on_time := none }, { on_time := none }] rfl (by decide)).2 (by decide)⟩

/-- C2 (corrected): when no trained estimator is loaded, calculate_credit_score
returns the clamped deterministic fallback score, an integer between 300 and
850; but an exception raised while invoking the trained estimator propagates to
the outermost handler, which hands the caller an error object instead of any
score. -/
theorem c2_fallback_semantics (fd : FinancialData) (msg : String) :
    (calculate_credit_score fd ModelPath.noModel).map (fun r => r.credit_score) =
      Except.ok ⌊clamp_score (calculate_fallback_score
        (process_user_financial_data fd).credit_factors)⌋ ∧
    300 ≤ ⌊clamp_score (calculate_fallback_score
        (process_user_financial_data fd).credit_factors)⌋ ∧
    ⌊clamp_score (calculate_fallback_score
        (process_user_financial_data fd).credit_factors)⌋ ≤ 850 ∧
    calculate_credit_score fd (ModelPath.raises msg) = Except.error msg :=
  ⟨rfl, (clamp_score_floor_mem _).1, (clamp_score_floor_mem _).2, rfl⟩

/-- C2 counterexample: a trained-estimator exception yields an error result, not
a fallback score, so the caller does receive an error in place of a score. -/
theorem c2_error_counterexample :
    calculate_credit_score empty_financial_data (ModelPath.raises "Not fitted") =
      Except.error "Not fitted" := rfl

/-- C3 counterexample: with an empty loans list the payment_history factor raw
score is 1, not the claimed 0.5. -/
theorem c3_payment_history_counterexample :
    factor_score (process_user_financial_data empty_financial_data).credit_factors
      "payment_history" = some 1 ∧ (1 : ℚ) ≠ 1/2 := by
  refine ⟨rfl, by norm_num⟩

/-- C3 (corrected): an empty loans list yields payment_history_score 1.0 (the
early return), the loan_utilization key is absent from the metrics, and the
factors therefore carry raw score 1 for payment_history and, via the utilization
default 0, raw score 1 for credit_utilization. -/
theorem c3_empty_loans_amended (fd : FinancialData) (h : fd.loans = []) :
    (process_loan_data fd.loans).payment_history_score = 1 ∧
    (process_loan_data fd.loans).loan_utilization = none ∧
    factor_score (process_user_financial_data fd).credit_factors
      "payment_history" = some 1 ∧
    factor_score (process_user_financial_data fd).credit_factors
      "credit_utilization" = some 1 := by
  refine ⟨by simp [h, process_loan_data], by simp [h, process_loan_data], ?_, ?_⟩ <;>
    simp [process_user_financial_data, calculate_credit_factors, factor_score, h,
      process_loan_data, List.lookup]

/-- Witness for C3 at the all-empty bundle. -/
theorem c3_empty_loans_amended_witness :
    empty_financial_data.loans = [] ∧
    factor_score (process_user_financial_data empty_financial_data).credit_factors
      "credit_utilization" = some 1 :=
  ⟨rfl, (c3_empty_loans_amended empty_financial_data rfl).2.2.2⟩

/-- C6 counterexample: with zero income events the processor returns the
all-zero default metrics, so the stability is 0 and not the claimed 1.0. -/
theorem c6_zero_events_counterexample :
    (process_income_data []).income_stability = 0 ∧ ((0 : ℝ) ≠ 1) :=
  ⟨rfl, by norm_num⟩

/-- C6 (corrected): the income stability and deposit consistency metrics equal
1 - stddev/mean clamped into the unit interval for two or more points, equal 1.0
for exactly one point, and equal 0 (the all-zero default) for zero events. -/
theorem c6_stability_amended (incomes : List IncomeEvent) (deposits : List DepositEvent) :
    (incomes = [] → (process_income_data incomes).income_stability = 0) ∧
    (incomes.length = 1 → (process_income_data incomes).income_stability = 1) ∧
    (2 ≤ incomes.length →
      (process_income_data incomes).income_stability =
        max 0 (min 1 (1 - np_std (incomes.map (fun i => i.amount.getD 0)) /
          ((np_mean (incomes.map (fun i => i.amount.getD 0)) : ℚ) : ℝ)))) ∧
    (deposits = [] → (process_deposit_data deposits).deposit_consistency = 0) ∧
    (deposits.length = 1 → (process_deposit_data deposits).deposit_consistency = 1) ∧
    (2 ≤ deposits.length →
      (process_deposit_data deposits).deposit_consistency =
        max 0 (min 1 (1 - np_std (deposits.map (fun d => d.amount.getD 0)) /
          ((np_mean (deposits.map (fun d => d.amount.getD 0)) : ℚ) : ℝ)))) := by
  refine ⟨?_, ?_, ?_, ?_, ?_, ?_⟩
  · intro h; subst h; rfl
  · intro h
    match incomes, h with
    | [i], _ => simp [process_income_data]
  · intro h
    have hne : incomes.isEmpty = false := by
      cases incomes with
      | nil => simp at h
      | cons a l => rfl
    have hlt : 1 < incomes.length := by omega
    simp [process_income_data, hne, hlt]
  · intro h; subst h; rfl
  · intro h
    match deposits, h with
    | [d], _ => simp [process_deposit_data]
  · intro h
    have hne : deposits.isEmpty = false := by
      cases deposits with
      | nil => simp at h
      | cons a l => rfl
    have hlt : 1 < deposits.length := by omega
    simp [process_deposit_data, hne, hlt]

/-- Witness for C6: the zero-event, one-point and two-point cases. -/
theorem c6_stability_amended_witness :
    (([] : List IncomeEvent) = []) ∧
    (process_income_data []).income_stability = 0 ∧
    2 ≤ c6_incomes.length ∧
    (process_income_data c6_incomes).income_stability =
      max 0 (min 1 (1 - np_std (c6_incomes.map (fun i => i.amount.getD 0)) /
        ((np_mean (c6_incomes.map (fun i => i.amount.getD 0)) : ℚ) : ℝ))) ∧
    c6_deposits.length = 1 ∧
    (process_deposit_data c6_deposits).deposit_consistency = 1 :=
  ⟨rfl, (c6_stability_amended [] []).1 rfl, by decide,
   (c6_stability_amended c6_incomes c6_deposits).2.2.1 (by decide),
   by decide,
   (c6_stability_amended c6_incomes c6_deposits).2.2.2.2.1 (by decide)⟩

/-- On every integer score in the 300 to 850 range the rating computed by the
code coincides with the unique band containing that integer. -/
theorem band_matches_rating_int (n : ℤ) (h1 : 300 ≤ n) (h2 : n ≤ 850) :
    band_of_score n = some (determine_credit_rating (n : ℚ)) := by
  have hsplit : (750 ≤ n ∧ n ≤ 850) ∨ (700 ≤ n ∧ n ≤ 749) ∨ (650 ≤ n ∧ n ≤ 699) ∨
      (600 ≤ n ∧ n ≤ 649) ∨ (300 ≤ n ∧ n ≤ 599) := by omega
  rcases hsplit with ⟨ha, hb⟩ | ⟨ha, hb⟩ | ⟨ha, hb⟩ | ⟨ha, hb⟩ | ⟨ha, hb⟩
  · have qa : (750 : ℚ) ≤ (n : ℚ) := by exact_mod_cast ha
    have qb : ((n : ℚ)) ≤ 850 := by exact_mod_cast hb
    simp [band_of_score, determine_credit_rating, credit_score_ranges, List.find?, qa, qb]
  · have qa : (700 : ℚ) ≤ (n : ℚ) := by exact_mod_cast ha
    have qb : ((n : ℚ)) ≤ 749 := by exact_mod_cast hb
    have q1 : ¬ (750 : ℚ) ≤ (n : ℚ) := by
      rw [not_le]; exact_mod_cast (by omega : n < 750)
    simp [band_of_score, determine_credit_rating, credit_score_ranges, List.find?,
      qa, qb, q1]
  · have qa : (650 : ℚ) ≤ (n : ℚ) := by exact_mod_cast ha
    have qb : ((n : ℚ)) ≤ 699 := by exact_mod_cast hb
    have q1 : ¬ (750 : ℚ) ≤ (n : ℚ) := by
      rw [not_le]; exact_mod_cast (by omega : n < 750)
    have q2 : ¬ (700 : ℚ) ≤ (n : ℚ) := by
      rw [not_le]; exact_mod_cast (by omega : n < 700)
    simp [band_of_score, determine_credit_rating, credit_score_ranges, List.find?,
      qa, qb, q1, q2]
  · have qa : (600 : ℚ) ≤ (n : ℚ) := by exact_mod_cast ha
    have qb : ((n : ℚ)) ≤ 649 := by exact_mod_cast hb
    have q1 : ¬ (750 : ℚ) ≤ (n : ℚ) := by
      rw [not_le]; exact_mod_cast (by omega : n < 750)
    have q2 : ¬ (700 : ℚ) ≤ (n : ℚ) := by
      rw [not_le]; exact_mod_cast (by omega : n < 700)
    have q3 : ¬ (650 : ℚ) ≤ (n : ℚ) := by
      rw [not_le]; exact_mod_cast (by omega : n < 650)
    simp [band_of_score, determine_credit_rating, credit_score_ranges, List.find?,
      qa, qb, q1, q2, q3]
  · have qa : (300 : ℚ) ≤ (n : ℚ) := by exact_mod_cast ha
    have qb : ((n : ℚ)) ≤ 599 := by exact_mod_cast hb
    have q1 : ¬ (750 : ℚ) ≤ (n : ℚ) := by
      rw [not_le]; exact_mod_cast (by omega : n < 750)
    have q2 : ¬ (700 : ℚ) ≤ (n : ℚ) := by
      rw [not_le]; exact_mod_cast (by omega : n < 700)
    have q3 : ¬ (650 : ℚ) ≤ (n : ℚ) := by
      rw [not_le]; exact_mod_cast (by omega : n < 650)
    have q4 : ¬ (600 : ℚ) ≤ (n : ℚ) := by
      rw [not_le]; exact_mod_cast (by omega : n < 600)
    simp [band_of_score, determine_credit_rating, credit_score_ranges, List.find?,
      qa, qb, q1, q2, q3, q4]

/-- Whenever a (possibly fractional) score lies inside one of the five rating
bands, the code's rating is that band's name and the truncated score falls in
the same band, so the two agree. -/
theorem band_agreement_of_mem (s : ℚ)
    (h : ∃ r ∈ credit_score_ranges, r.2.1 ≤ s ∧ s ≤ r.2.2) :
    band_of_score ⌊s⌋ = some (determine_credit_rating s) := by
  obtain ⟨r, hr, hlo, hhi⟩ := h
  have hfl : ((⌊s⌋ : ℤ) : ℚ) ≤ s := Int.floor_le s
  simp only [credit_score_ranges, List.mem_cons, List.not_mem_nil, or_false] at hr
  rcases hr with rfl | rfl | rfl | rfl | rfl
  · have ha : (750 : ℚ) ≤ s := hlo
    have hb : s ≤ 850 := hhi
    have fa : (750 : ℤ) ≤ ⌊s⌋ := Int.le_floor.mpr (by exact_mod_cast ha)
    have qa : (750 : ℚ) ≤ ((⌊s⌋ : ℤ) : ℚ) := by exact_mod_cast fa
    have qb : ((⌊s⌋ : ℤ) : ℚ) ≤ 850 := by linarith
    simp [band_of_score, determine_credit_rating, credit_score_ranges, List.find?,
      ha, hb, qa, qb]
  · have ha : (700 : ℚ) ≤ s := hlo
    have hb : s ≤ 749 := hhi
    have fa : (700 : ℤ) ≤ ⌊s⌋ := Int.le_floor.mpr (by exact_mod_cast ha)
    have qa : (700 : ℚ) ≤ ((⌊s⌋ : ℤ) : ℚ) := by exact_mod_cast fa
    have qb : ((⌊s⌋ : ℤ) : ℚ) ≤ 749 := by linarith
    have n1 : ¬ (750 : ℚ) ≤ s := by rw [not_le]; linarith
    have m1 : ¬ (750 : ℚ) ≤ ((⌊s⌋ : ℤ) : ℚ) := by rw [not_le]; linarith
    simp [band_of_score, determine_credit_rating, credit_score_ranges, List.find?,
      ha, hb, qa, qb, n1, m1]
  · have ha : (650 : ℚ) ≤ s := hlo
    have hb : s ≤ 699 := hhi
    have fa : (650 : ℤ) ≤ ⌊s⌋ := Int.le_floor.mpr (by exact_mod_cast ha)
    have qa : (650 : ℚ) ≤ ((⌊s⌋ : ℤ) : ℚ) := by exact_mod_cast fa
    have qb : ((⌊s⌋ : ℤ) : ℚ) ≤ 699 := by linarith
    have n1 : ¬ (750 : ℚ) ≤ s := by rw [not_le]; linarith
    have n2 : ¬ (700 : ℚ) ≤ s := by rw [not_le]; linarith
    have m1 : ¬ (750 : ℚ) ≤ ((⌊s⌋ : ℤ) : ℚ) := by rw [not_le]; linarith
    have m2 : ¬ (700 : ℚ) ≤ ((⌊s⌋ : ℤ) : ℚ) := by rw [not_le]; linarith
    simp [band_of_score, determine_credit_rating, credit_score_ranges, List.find?,
      ha, hb, qa, qb, n1, n2, m1, m2]
  · have ha : (600 : ℚ) ≤ s := hlo
    have hb : s ≤ 649 := hhi
    have fa : (600 : ℤ) ≤ ⌊s⌋ := Int.le_floor.mpr (by exact_mod_cast ha)
    have qa : (600 : ℚ) ≤ ((⌊s⌋ : ℤ) : ℚ) := by exact_mod_cast fa
    have qb : ((⌊s⌋ : ℤ) : ℚ) ≤ 649 := by linarith
    have n1 : ¬ (750 : ℚ) ≤ s := by rw [not_le]; linarith
    have n2 : ¬ (700 : ℚ) ≤ s := by rw [not_le]; linarith
    have n3 : ¬ (650 : ℚ) ≤ s := by rw [not_le]; linarith
    have m1 : ¬ (750 : ℚ) ≤ ((⌊s⌋ : ℤ) : ℚ) := by rw [not_le]; linarith
    have m2 : ¬ (700 : ℚ) ≤ ((⌊s⌋ : ℤ) : ℚ) := by rw [not_le]; linarith
    have m3 : ¬ (650 : ℚ) ≤ ((⌊s⌋ : ℤ) : ℚ) := by rw [not_le]; linarith
    simp [band_of_score, determine_credit_rating, credit_score_ranges, List.find?,
      ha, hb, qa, qb, n1, n2, n3, m1, m2, m3]
  · have ha : (300 : ℚ) ≤ s := hlo
    have hb : s ≤ 599 := hhi
    have fa : (300 : ℤ) ≤ ⌊s⌋ := Int.le_floor.mpr (by exact_mod_cast ha)
    have qa : (300 : ℚ) ≤ ((⌊s⌋ : ℤ) : ℚ) := by exact_mod_cast fa
    have qb : ((⌊s⌋ : ℤ) : ℚ) ≤ 599 := by linarith
    have n1 : ¬ (750 : ℚ) ≤ s := by rw [not_le]; linarith
    have n2 : ¬ (700 : ℚ) ≤ s := by rw [not_le]; linarith
    have n3 : ¬ (650 : ℚ) ≤ s := by rw [not_le]; linarith
    have n4 : ¬ (600 : ℚ) ≤ s := by rw [not_le]; linarith
    have m1 : ¬ (750 : ℚ) ≤ ((⌊s⌋ : ℤ) : ℚ) := by rw [not_le]; linarith
    have m2 : ¬ (700 : ℚ) ≤ ((⌊s⌋ : ℤ) : ℚ) := by rw [not_le]; linarith
    have m3 : ¬ (650 : ℚ) ≤ ((⌊s⌋ : ℤ) : ℚ) := by rw [not_le]; linarith
    have m4 : ¬ (600 : ℚ) ≤ ((⌊s⌋ : ℤ) : ℚ) := by rw [not_le]; linarith
    simp [band_of_score, determine_credit_rating, credit_score_ranges, List.find?,
      ha, hb, qa, qb, n1, n2, n3, n4, m1, m2, m3, m4]

/-- C1 (corrected): the returned credit_score is always an integer in
[300, 850], and whenever the clamped raw score lies inside one of the five
bands - in particular whenever it is an integer - the rating is exactly the
band containing the returned credit_score; a fractional raw score falling in a
gap between two bands is instead rated by the default branch, so the rating can
then differ from the band of the truncated score. Both the trained path and the
fallback path feed the same clamp, truncation and rating steps. -/
theorem c1_rating_amended (s : ℚ) (fd : FinancialData) (v : ℚ) :
    300 ≤ ⌊clamp_score s⌋ ∧ ⌊clamp_score s⌋ ≤ 850 ∧
    ((∃ r ∈ credit_score_ranges,
        r.2.1 ≤ clamp_score s ∧ clamp_score s ≤ r.2.2) →
      band_of_score ⌊clamp_score s⌋ = some (determine_credit_rating (clamp_score s))) ∧
    (clamp_score s = (⌊clamp_score s⌋ : ℚ) →
      band_of_score ⌊clamp_score s⌋ = some (determine_credit_rating (clamp_score s))) ∧
    (calculate_credit_score fd (ModelPath.predicts v)).map
        (fun r => (r.credit_score, r.credit_rating)) =
      Except.ok (⌊clamp_score v⌋, determine_credit_rating (clamp_score v)) ∧
    (calculate_credit_score fd ModelPath.noModel).map
        (fun r => (r.credit_score, r.credit_rating)) =
      Except.ok (⌊clamp_score (calculate_fallback_score
          (process_user_financial_data fd).credit_factors)⌋,
        determine_credit_rating (clamp_score (calculate_fallback_score
          (process_user_financial_data fd).credit_factors))) := by
  obtain ⟨hlo, hhi⟩ := clamp_score_floor_mem s
  refine ⟨hlo, hhi, ?_, ?_, rfl, rfl⟩
  · exact fun h => band_agreement_of_mem _ h
  · intro hint
    set n := ⌊clamp_score s⌋ with hn
    rw [hint]
    exact band_matches_rating_int n hlo hhi

/-- C1 counterexample: the bundle c1_financial_data makes the fallback raw
score exactly 649.5, which no band contains; the result pairs credit_score 649
(in the poor band) with the default rating "fair". -/
theorem c1_gap_counterexample :
    (calculate_credit_score c1_financial_data ModelPath.noModel).map
      (fun r => (r.credit_score, r.credit_rating)) = Except.ok ((649 : ℤ), "fair") ∧
    band_of_score 649 = some "poor" ∧ ("poor" : String) ≠ "fair" := by
  have hfb : calculate_fallback_score
      (process_user_financial_data c1_financial_data).credit_factors = 1299/2 := by
    simp [process_user_financial_data, calculate_credit_factors, process_loan_data,
      c1_financial_data, c1_loan, loan_payment_score, np_mean, weight_of,
      credit_factors_weights, List.lookup, calculate_fallback_score]
    norm_num
  have hcl : clamp_score (1299/2 : ℚ) = 1299/2 := by
    rw [clamp_score]
    rw [min_eq_right (by norm_num : (1299/2 : ℚ) ≤ 850)]
    rw [max_eq_right (by norm_num : (300 : ℚ) ≤ 1299/2)]
  have hfl : ⌊(1299/2 : ℚ)⌋ = 649 := by norm_num [Int.floor_eq_iff]
  have hrt : determine_credit_rating (1299/2 : ℚ) = "fair" := by
    norm_num [determine_credit_rating, credit_score_ranges, List.find?]
  refine ⟨?_, ?_, by decide⟩
  · show Except.ok (⌊clamp_score (calculate_fallback_score
        (process_user_financial_data c1_financial_data).credit_factors)⌋,
      determine_credit_rating (clamp_score (calculate_fallback_score
        (process_user_financial_data c1_financial_data).credit_factors))) =
      Except.ok ((649 : ℤ), "fair")
    rw [hfb, hcl, hfl, hrt]
  · norm_num [band_of_score, credit_score_ranges, List.find?]

/-- Witness for C1 at the fractional in-band raw score 620.5 and at the
integer raw score 700: both hypotheses are discharged concretely and the rating
matches the band of the truncated score. -/
theorem c1_rating_amended_witness :
    (∃ r ∈ credit_score_ranges,
      r.2.1 ≤ clamp_score ((1241 : ℚ)/2) ∧ clamp_score ((1241 : ℚ)/2) ≤ r.2.2) ∧
    band_of_score ⌊clamp_score ((1241 : ℚ)/2)⌋ =
      some (determine_credit_rating (clamp_score ((1241 : ℚ)/2))) ∧
    clamp_score 700 = ((⌊clamp_score (700 : ℚ)⌋ : ℤ) : ℚ) ∧
    band_of_score ⌊clamp_score (700 : ℚ)⌋ =
      some (determine_credit_rating (clamp_score 700)) := by
  have hcl : clamp_score ((1241 : ℚ)/2) = 1241/2 := by
    rw [clamp_score]
    rw [min_eq_right (by norm_num : (1241/2 : ℚ) ≤ 850)]
    rw [max_eq_right (by norm_num : (300 : ℚ) ≤ 1241/2)]
  have hib : ∃ r ∈ credit_score_ranges,
      r.2.1 ≤ clamp_score ((1241 : ℚ)/2) ∧ clamp_score ((1241 : ℚ)/2) ≤ r.2.2 := by
    refine ⟨("poor", 600, 649), ?_, ?_, ?_⟩
    · simp [credit_score_ranges]
    · rw [hcl]; norm_num
    · rw [hcl]; norm_num
  have h700 : clamp_score 700 = ((⌊clamp_score (700 : ℚ)⌋ : ℤ) : ℚ) := by
    have h1 : clamp_score (700 : ℚ) = 700 := by
      rw [clamp_score]
      rw [min_eq_right (by norm_num : (700 : ℚ) ≤ 850)]
      rw [max_eq_right (by norm_num : (300 : ℚ) ≤ 700)]
    rw [h1]
    norm_num
  exact ⟨hib, (c1_rating_amended (1241/2) empty_financial_data 700).2.2.1 hib,
    h700, (c1_rating_amended 700 empty_financial_data 700).2.2.2.1 h700⟩

/-- C7 (corrected): below ten data points every category analysis (income,
expenditure, savings, transactions) returns only the insufficient_data marker,
with no trend or seasonality fields; at exactly ten points each category
returns its full analysis, and the income analysis includes both trend and
seasonality keys, but the other categories do not all do so - the expenditure
analysis includes trend and no seasonality key, and the savings and
transactions analyses include neither key. -/
theorem c7_threshold_amended (o : MLOracles) (incomes : List InsEvent)
    (expenditures : List ExpEvent) (savings : List InsEvent)
    (transactions : List TxEvent) :
    (incomes.length < 10 →
      analyze_income_patterns o incomes = AnalysisOutcome.insufficientData ∧
      income_patterns_keys (analyze_income_patterns o incomes) =
        ["insufficient_data"]) ∧
    (incomes.length = 10 →
      "trend" ∈ income_patterns_keys (analyze_income_patterns o incomes) ∧
      "seasonality" ∈ income_patterns_keys (analyze_income_patterns o incomes)) ∧
    (expenditures.length < 10 →
      analyze_expenditure_patterns o expenditures = AnalysisOutcome.insufficientData ∧
      expenditure_patterns_keys (analyze_expenditure_patterns o expenditures) =
        ["insufficient_data"]) ∧
    (expenditures.length = 10 →
      "trend" ∈ expenditure_patterns_keys (analyze_expenditure_patterns o expenditures) ∧
      "seasonality" ∉
        expenditure_patterns_keys (analyze_expenditure_patterns o expenditures)) ∧
    (savings.length < 10 →
      analyze_savings_patterns o savings = AnalysisOutcome.insufficientData ∧
      savings_patterns_keys (analyze_savings_patterns o savings) =
        ["insufficient_data"]) ∧
    (savings.length = 10 →
      savings_patterns_keys (analyze_savings_patterns o savings) =
        ["total_savings", "average_savings", "consistency", "goals_analysis",
         "trajectory", "data_points"] ∧
      "trend" ∉ savings_patterns_keys (analyze_savings_patterns o savings) ∧
      "seasonality" ∉ savings_patterns_keys (analyze_savings_patterns o savings)) ∧
    (transactions.length < 10 →
      analyze_transaction_patterns transactions = AnalysisOutcome.insufficientData ∧
      transaction_patterns_keys (analyze_transaction_patterns transactions) =
        ["insufficient_data"]) ∧
    (transactions.length = 10 →
      transaction_patterns_keys (analyze_transaction_patterns transactions) =
        ["frequency", "amounts", "timing", "types", "data_points"] ∧
      "trend" ∉ transaction_patterns_keys (analyze_transaction_patterns transactions) ∧
      "seasonality" ∉
        transaction_patterns_keys (analyze_transaction_patterns transactions)) := by
  refine ⟨?_, ?_, ?_, ?_, ?_, ?_, ?_, ?_⟩
  · intro h
    have h' : incomes.length < min_data_points := h
    unfold analyze_income_patterns
    rw [if_pos h']
    exact ⟨rfl, rfl⟩
  · intro h
    have h' : ¬ incomes.length < min_data_points := by
      rw [h]; exact (by omega : ¬ (10 : ℕ) < 10)
    unfold analyze_income_patterns
    rw [if_neg h']
    constructor <;> simp [income_patterns_keys]
  · intro h
    have h' : expenditures.length < min_data_points := h
    unfold analyze_expenditure_patterns
    rw [if_pos h']
    exact ⟨rfl, rfl⟩
  · intro h
    have h' : ¬ expenditures.length < min_data_points := by
      rw [h]; exact (by omega : ¬ (10 : ℕ) < 10)
    unfold analyze_expenditure_patterns
    rw [if_neg h']
    constructor <;> simp [expenditure_patterns_keys]
  · intro h
    have h' : savings.length < min_data_points := h
    unfold analyze_savings_patterns
    rw [if_pos h']
    exact ⟨rfl, rfl⟩
  · intro h
    have h' : ¬ savings.length < min_data_points := by
      rw [h]; exact (by omega : ¬ (10 : ℕ) < 10)
    unfold analyze_savings_patterns
    rw [if_neg h']
    refine ⟨rfl, ?_, ?_⟩ <;> simp [savings_patterns_keys]
  · intro h
    have h' : transactions.length < min_data_points := h
    unfold analyze_transaction_patterns
    rw [if_pos h']
    exact ⟨rfl, rfl⟩
  · intro h
    have h' : ¬ transactions.length < min_data_points := by
      rw [h]; exact (by omega : ¬ (10 : ℕ) < 10)
    unfold analyze_transaction_patterns
    rw [if_neg h']
    refine ⟨rfl, ?_, ?_⟩ <;> simp [transaction_patterns_keys]

/-- C7 counterexample: an expenditure category with exactly ten data points
produces its full analysis, yet its key set contains no seasonality entry, so
not every category at the threshold yields seasonality output. -/
theorem c7_seasonality_counterexample :
    c7_expenditures.length = 10 ∧
    expenditure_patterns_keys
        (analyze_expenditure_patterns c7_oracles c7_expenditures) =
      ["total_expenditure", "average_expenditure", "expenditure_volatility",
       "category_analysis", "trend", "spending_patterns", "unusual_spending",
       "data_points"] ∧
    "seasonality" ∉ expenditure_patterns_keys
      (analyze_expenditure_patterns c7_oracles c7_expenditures) := by
  have hk : expenditure_patterns_keys
      (analyze_expenditure_patterns c7_oracles c7_expenditures) =
      ["total_expenditure", "average_expenditure", "expenditure_volatility",
       "category_analysis", "trend", "spending_patterns", "unusual_spending",
       "data_points"] := by
    unfold analyze_expenditure_patterns
    rw [if_neg (by decide : ¬ c7_expenditures.length < min_data_points)]
    rfl
  exact ⟨rfl, hk, by rw [hk]; decide⟩

/-- Witness for C7: the below-threshold and the four at-threshold hypotheses
hold at the concrete event lists. -/
theorem c7_threshold_amended_witness :
    (c7_incomes_short.length < 10 ∧
      analyze_income_patterns c7_oracles c7_incomes_short =
        AnalysisOutcome.insufficientData) ∧
    (c7_incomes.length = 10 ∧
      "seasonality" ∈ income_patterns_keys
        (analyze_income_patterns c7_oracles c7_incomes)) ∧
    (c7_expenditures.length = 10 ∧
      "seasonality" ∉ expenditure_patterns_keys
        (analyze_expenditure_patterns c7_oracles c7_expenditures)) ∧
    (c7_incomes.length = 10 ∧
      "trend" ∉ savings_patterns_keys
        (analyze_savings_patterns c7_oracles c7_incomes)) ∧
    (c7_transactions.length = 10 ∧
      "seasonality" ∉ transaction_patterns_keys
        (analyze_transaction_patterns c7_transactions)) :=
  ⟨⟨by decide,
    ((c7_threshold_amended c7_oracles c7_incomes_short c7_expenditures c7_incomes
      c7_transactions).1 (by decide)).1⟩,
   ⟨rfl,
    ((c7_threshold_amended c7_oracles c7_incomes c7_expenditures c7_incomes
      c7_transactions).2.1 rfl).2⟩,
   ⟨rfl,
    ((c7_threshold_amended c7_oracles c7_incomes c7_expenditures c7_incomes
      c7_transactions).2.2.2.1 rfl).2⟩,
   ⟨rfl,
    ((c7_threshold_amended c7_oracles c7_incomes c7_expenditures c7_incomes
      c7_transactions).2.2.2.2.2.1 rfl).2.1⟩,
   ⟨rfl,
    ((c7_threshold_amended c7_oracles c7_incomes c7_expenditures c7_incomes
      c7_transactions).2.2.2.2.2.2.2 rfl).2.2⟩⟩

/-- On a 20-element series the 95th percentile with linear interpolation sits
one twentieth of the way from the 19th to the 20th order statistic. -/
theorem quantile95_len20 (xs : List ℚ) (h : xs.length = 20) :
    quantile_linear xs (95/100) =
      (List.insertionSort (fun a b => a ≤ b) xs).getD 18 0 +
        ((List.insertionSort (fun a b => a ≤ b) xs).getD 19
            ((List.insertionSort (fun a b => a ≤ b) xs).getD 18 0) -
          (List.insertionSort (fun a b => a ≤ b) xs).getD 18 0) * (1/20) := by
  have hs : (List.insertionSort (fun a b : ℚ => a ≤ b) xs).length = 20 := by
    rw [(List.perm_insertionSort _ xs).length_eq, h]
  simp only [quantile_linear]
  rw [hs]
  rw [if_neg (by norm_num : ¬ (20 : ℕ) = 0)]
  have h1 : ((95 : ℚ)/100) * (((20 : ℕ) : ℚ) - 1) = 361/20 := by push_cast; norm_num
  rw [h1]
  have h2 : ⌊(361/20 : ℚ)⌋ = 18 := by norm_num [Int.floor_eq_iff]
  rw [h2]
  have h3 : Int.toNat 18 = 18 := rfl
  rw [h3]
  norm_num

/-- C9: in a 20-event expenditure frame holding one 50000 event among 19 events
of amount at most 2000 (near 1000), _detect_unusual_spending flags exactly the
50000 event, with severity "high"; every other event sits strictly below the
95th-percentile threshold, which itself is strictly below 50000. -/
theorem c9_unusual_spending (A B : List ExpEvent) (x : ExpEvent)
    (hlen : A.length + B.length = 19)
    (hx : x.amount = 50000)
    (hother : ∀ e ∈ A ++ B, e.amount ≤ 2000) :
    detect_unusual_spending (A ++ x :: B) =
      [{ date := x.date, amount := x.amount, category := x.category.getD "unknown",
         type := "high_value_transaction", severity := "high" }] ∧
    (∀ e ∈ A ++ B,
      e.amount < quantile_linear ((A ++ x :: B).map (fun e => e.amount)) (95/100)) ∧
    quantile_linear ((A ++ x :: B).map (fun e => e.amount)) (95/100) < 50000 := by
  set xs := (A ++ x :: B).map (fun e => e.amount) with hxs
  have hxslen : xs.length = 20 := by
    rw [hxs, List.length_map, List.length_append, List.length_cons]
    omega
  set s := List.insertionSort (fun a b : ℚ => a ≤ b) xs with hsdef
  have hslen : s.length = 20 := by
    rw [hsdef, (List.perm_insertionSort _ xs).length_eq]
    exact hxslen
  have hsorted : s.Sorted (fun a b : ℚ => a ≤ b) := by
    rw [hsdef]; exact List.sorted_insertionSort _ xs
  have hperm : s.Perm xs := by
    rw [hsdef]; exact List.perm_insertionSort _ xs
  have hmem_xs : ∀ a ∈ xs, a = 50000 ∨ a ≤ 2000 := by
    intro a ha
    rw [hxs] at ha
    obtain ⟨e, he, rfl⟩ := List.mem_map.mp ha
    rcases List.mem_append.mp he with hA | hxB
    · exact Or.inr (hother e (List.mem_append.mpr (Or.inl hA)))
    · rcases List.mem_cons.mp hxB with heq | hB
      · exact Or.inl (heq ▸ hx)
      · exact Or.inr (hother e (List.mem_append.mpr (Or.inr hB)))
  have hle_xs : ∀ a ∈ xs, a ≤ 50000 := by
    intro a ha
    rcases hmem_xs a ha with rfl | hle
    · exact le_refl _
    · linarith
  have h5mem : (50000 : ℚ) ∈ xs := by
    rw [hxs]
    exact List.mem_map.mpr
      ⟨x, List.mem_append.mpr (Or.inr (List.mem_cons_self _ _)), hx⟩
  have h18 : 18 < s.length := by omega
  have h19 : 19 < s.length := by omega
  have htop : ∀ a ∈ s, a ≤ s.get ⟨19, h19⟩ := by
    intro a ha
    obtain ⟨⟨k, hk⟩, hke⟩ := List.mem_iff_get.mp ha
    have hk19 : k ≤ 19 := by omega
    calc a = s.get ⟨k, hk⟩ := hke.symm
    _ ≤ s.get ⟨19, h19⟩ := hsorted.rel_get_of_le (Fin.mk_le_mk.mpr hk19)
  have hg19 : s.get ⟨19, h19⟩ = 50000 := by
    have hup : s.get ⟨19, h19⟩ ≤ 50000 :=
      hle_xs _ (hperm.subset (List.get_mem s 19 h19))
    have hdown : (50000 : ℚ) ≤ s.get ⟨19, h19⟩ :=
      htop _ (hperm.mem_iff.mpr h5mem)
    exact le_antisymm hup hdown
  have hcxs : xs.countP (fun a => decide (2000 < a)) = 1 := by
    rw [hxs, List.map_append, List.map_cons, List.countP_append, List.countP_cons]
    have hA0 : (A.map (fun e => e.amount)).countP (fun a => decide (2000 < a)) = 0 := by
      rw [List.countP_eq_zero]
      intro a ha
      obtain ⟨e, he, rfl⟩ := List.mem_map.mp ha
      simp only [decide_eq_true_eq]
      exact not_lt.mpr (hother e (List.mem_append.mpr (Or.inl he)))
    have hB0 : (B.map (fun e => e.amount)).countP (fun a => decide (2000 < a)) = 0 := by
      rw [List.countP_eq_zero]
      intro a ha
      obtain ⟨e, he, rfl⟩ := List.mem_map.mp ha
      simp only [decide_eq_true_eq]
      exact not_lt.mpr (hother e (List.mem_append.mpr (Or.inr he)))
    rw [hA0, hB0, hx]
    simp [show (2000 : ℚ) < 50000 by norm_num]
  have hcs : s.countP (fun a => decide (2000 < a)) = 1 := by
    rw [hperm.countP_eq]
    exact hcxs
  have hg18 : s.get ⟨18, h18⟩ ≤ 2000 := by
    by_contra hgt
    rw [not_le] at hgt
    have hg19gt : (2000 : ℚ) < s.get ⟨19, h19⟩ := by rw [hg19]; norm_num
    have hdec : s = s.take 18 ++ s.get ⟨18, h18⟩ :: s.get ⟨19, h19⟩ :: [] := by
      conv_lhs => rw [← List.take_append_drop 18 s]
      congr 1
      rw [List.drop_eq_getElem_cons (show 18 < s.length by omega)]
      rw [List.drop_eq_getElem_cons (show 19 < s.length by omega)]
      rw [List.drop_eq_nil_of_le (show s.length ≤ 20 by omega)]
      rfl
    have hsplit2 : s.countP (fun a => decide (2000 < a)) =
        (s.take 18).countP (fun a => decide (2000 < a)) +
          ((s.get ⟨18, h18⟩ :: s.get ⟨19, h19⟩ :: []).countP
            (fun a => decide (2000 < a))) := by
      conv_lhs => rw [hdec]
      rw [List.countP_append]
    have hpair : ((s.get ⟨18, h18⟩ :: s.get ⟨19, h19⟩ :: []).countP
        (fun a => decide (2000 < a))) = 2 := by
      have hgt18 : (2000 : ℚ) < s[18] := hgt
      have hgt19 : (2000 : ℚ) < s[19] := hg19gt
      simp [List.countP_cons, hgt18, hgt19]
    omega
  have hq : quantile_linear xs (95/100) =
      s.get ⟨18, h18⟩ + (s.get ⟨19, h19⟩ - s.get ⟨18, h18⟩) * (1/20) := by
    rw [quantile95_len20 xs hxslen, ← hsdef]
    have e18 : s.getD 18 0 = s.get ⟨18, h18⟩ := by
      rw [List.getD_eq_getElem?_getD, List.getElem?_eq_getElem h18]
      rfl
    have e19 : s.getD 19 (s.getD 18 0) = s.get ⟨19, h19⟩ := by
      rw [List.getD_eq_getElem?_getD, List.getElem?_eq_getElem h19]
      rfl
    rw [e19, e18]
  have hqval : quantile_linear xs (95/100) < 50000 := by
    rw [hq, hg19]
    linarith
  have hothers_le_g18 : ∀ e ∈ A ++ B, e.amount ≤ s.get ⟨18, h18⟩ := by
    intro e he
    have he' : e ∈ A ++ x :: B := by
      rcases List.mem_append.mp he with h | h
      · exact List.mem_append.mpr (Or.inl h)
      · exact List.mem_append.mpr (Or.inr (List.mem_cons_of_mem _ h))
    have hmem : e.amount ∈ s :=
      hperm.mem_iff.mpr (by rw [hxs]; exact List.mem_map.mpr ⟨e, he', rfl⟩)
    obtain ⟨⟨k, hk⟩, hke⟩ := List.mem_iff_get.mp hmem
    rcases Nat.lt_or_ge k 19 with hlt | hge
    · have hstep : s.get ⟨k, hk⟩ ≤ s.get ⟨18, h18⟩ :=
        hsorted.rel_get_of_le (Fin.mk_le_mk.mpr (by omega))
      rw [← hke]
      exact hstep
    · exfalso
      have hk' : k = 19 := by omega
      subst hk'
      have h50 : e.amount = 50000 := by
        rw [← hke]
        exact hg19
      have := hother e he
      rw [h50] at this
      linarith
  have hg18lt : s.get ⟨18, h18⟩ < quantile_linear xs (95/100) := by
    rw [hq, hg19]
    linarith
  have hothers_lt : ∀ e ∈ A ++ B,
      e.amount < quantile_linear xs (95/100) := by
    intro e he
    exact lt_of_le_of_lt (hothers_le_g18 e he) hg18lt
  have hxgt : quantile_linear xs (95/100) < x.amount := by
    rw [hx]
    exact hqval
  refine ⟨?_, hothers_lt, hqval⟩
  show (((A ++ x :: B).filter
      (fun t => decide (quantile_linear xs (95/100) < t.amount))).map
    (fun t =>
      ({ date := t.date, amount := t.amount, category := t.category.getD "unknown",
         type := "high_value_transaction",
         severity := "high" } : UnusualSpendingEntry))) = _
  have hfA : A.filter (fun t => decide (quantile_linear xs (95/100) < t.amount)) = [] := by
    rw [List.filter_eq_nil_iff]
    intro e he
    simp only [decide_eq_true_eq]
    exact not_lt.mpr (le_of_lt (hothers_lt e (List.mem_append.mpr (Or.inl he))))
  have hfB : B.filter (fun t => decide (quantile_linear xs (95/100) < t.amount)) = [] := by
    rw [List.filter_eq_nil_iff]
    intro e he
    simp only [decide_eq_true_eq]
    exact not_lt.mpr (le_of_lt (hothers_lt e (List.mem_append.mpr (Or.inr he))))
  rw [List.filter_append, List.filter_cons, hfA, hfB]
  simp [hxgt]

/-- Witness for C9 at 19 events of amount 1000 and one of amount 50000. -/
theorem c9_unusual_spending_witness :
    c9_before.length + c9_after.length = 19 ∧
    c9_outlier.amount = 50000 ∧
    (∀ e ∈ c9_before ++ c9_after, e.amount ≤ 2000) ∧
    detect_unusual_spending (c9_before ++ c9_outlier :: c9_after) =
      [{ date := c9_outlier.date, amount := c9_outlier.amount,
         category := c9_outlier.category.getD "unknown",
         type := "high_value_transaction", severity := "high" }] :=
  ⟨by decide, rfl, by decide,
   (c9_unusual_spending c9_before c9_after c9_outlier (by decide) rfl (by decide)).1⟩

end Jasho
